import Mathlib

/-!
Shallow embedding of `docs/conf.py` (Sphinx configuration of the godi
repository) and proofs about it.

The module's only executable logic is `get_version`, which shells out to
`git describe --tags --abbrev=0`; everything else is static configuration
data.  External effects are modelled explicitly:

* the outcome of the `subprocess.run` call is a value of `CmdOutcome`
  (either the call raised an exception, or it completed with a return
  code and a stdout string);
* the build-time environment enters only through `datetime.now().year`,
  passed to `evalConf` as the `year` argument;
* the Sphinx application object mutated by `setup` is modelled as an
  `AppState` record of registered assets.
-/

namespace DocsConf

/-- Outcome of the external `subprocess.run(['git', 'describe', '--tags',
'--abbrev=0'], ...)` call: either the invocation raised an exception, or the
process completed with a return code and captured standard output. -/
inductive CmdOutcome where
  | exc : CmdOutcome
  | completed (returncode : Int) (stdout : String) : CmdOutcome
deriving DecidableEq

/-- Characters removed by Python's `str.strip()` (the ASCII whitespace
class: space, tab, newline, carriage return, vertical tab, form feed). -/
def pyIsSpace (c : Char) : Bool :=
  c = ' ' || c = '\t' || c = '\n' || c = '\r' || c = '\x0b' || c = '\x0c'

/-- Strip characters satisfying `p` from both ends of a list. -/
def stripList (p : α → Bool) (l : List α) : List α :=
  (l.dropWhile p).rdropWhile p

/-- Python's `s.strip()`: remove leading and trailing whitespace. -/
def pyStrip (s : String) : String :=
  String.mk (stripList pyIsSpace s.data)

/-- `True` iff the string neither starts nor ends with a whitespace
character. -/
def noEdgeSpace (s : String) : Bool :=
  !(s.data.head?.any pyIsSpace) && !(s.data.getLast?.any pyIsSpace)

/-- `get_version` from `docs/conf.py`: on completion with return code `0`
return the stripped stdout, on a non-zero return code or an exception fall
through to the literal `'v0.0.0'`. -/
def get_version (run : CmdOutcome) : String :=
  match run with
  | CmdOutcome.exc => "v0.0.0"
  | CmdOutcome.completed returncode stdout =>
      if returncode = 0 then pyStrip stdout else "v0.0.0"

/-- A Python scalar appearing in the configuration dictionaries. -/
inductive PyValue where
  | str (s : String) : PyValue
  | bool (b : Bool) : PyValue
  | int (n : Int) : PyValue
deriving DecidableEq, BEq

/-- `True` iff the value is a Python string. -/
def PyValue.isStr : PyValue → Bool
  | PyValue.str _ => true
  | _ => false

def project : String := "godi"

def author : String := "junioryono"

/-- `copyright = f'{datetime.now().year}, {author}'`: the year is the
build-time year. -/
def copyright (year : Nat) : String := toString year ++ ", " ++ author

/-- `release = get_version()` -/
def release (cmd : CmdOutcome) : String := get_version cmd

/-- `version = release` -/
def version (cmd : CmdOutcome) : String := release cmd

def extensions : List String :=
  ["myst_parser", "sphinx_rtd_theme", "sphinx_favicon",
   "sphinxext.rediraffe", "sphinx_copybutton"]

def templates_path : List String := ["_templates"]

def exclude_patterns : List String :=
  ["_build", "_venv", "Thumbs.db", ".DS_Store"]

def html_theme : String := "sphinx_rtd_theme"

def html_static_path : List String := ["_static"]

def html_logo : String := "_static/logo.png"

def html_theme_options : List (String × PyValue) :=
  [("logo_only", PyValue.bool true),
   ("prev_next_buttons_location", PyValue.str "both"),
   ("style_external_links", PyValue.bool false),
   ("style_nav_header_background", PyValue.str "#2980B9"),
   ("collapse_navigation", PyValue.bool false),
   ("sticky_navigation", PyValue.bool true),
   ("navigation_depth", PyValue.int 4),
   ("includehidden", PyValue.bool true),
   ("titles_only", PyValue.bool false)]

def html_context : List (String × PyValue) :=
  [("display_github", PyValue.bool true),
   ("github_user", PyValue.str "junioryono"),
   ("github_repo", PyValue.str "godi"),
   ("github_version", PyValue.str "main"),
   ("conf_py_path", PyValue.str "/docs/")]

def favicons : List String := ["favicon.png"]

def myst_enable_extensions : List String :=
  ["attrs_inline", "colon_fence", "deflist", "tasklist"]

def copybutton_prompt_text : String := "$ |>>> |\\.\\.\\. "

def copybutton_prompt_is_regexp : Bool := true

/-- The `rediraffe_redirects` dictionary, with keys and values kept as
Python values. -/
def rediraffe_redirects : List (PyValue × PyValue) :=
  [(PyValue.str "installation", PyValue.str "getting-started/01-installation"),
   (PyValue.str "core-concepts", PyValue.str "concepts/how-it-works"),
   (PyValue.str "service-lifetimes", PyValue.str "concepts/lifetimes"),
   (PyValue.str "scopes-isolation", PyValue.str "concepts/scopes"),
   (PyValue.str "modules", PyValue.str "concepts/modules"),
   (PyValue.str "keyed-services", PyValue.str "features/keyed-services"),
   (PyValue.str "service-groups", PyValue.str "features/service-groups"),
   (PyValue.str "parameter-objects", PyValue.str "features/parameter-objects"),
   (PyValue.str "result-objects", PyValue.str "features/result-objects"),
   (PyValue.str "interface-registration", PyValue.str "features/interface-binding"),
   (PyValue.str "resource-management", PyValue.str "features/resource-cleanup"),
   (PyValue.str "dependency-resolution", PyValue.str "concepts/how-it-works"),
   (PyValue.str "service-registration", PyValue.str "getting-started/03-adding-services")]

/-- The top-level variables defined by evaluating `docs/conf.py`. -/
structure ConfModule where
  project : String
  author : String
  copyright : String
  release : String
  version : String
  extensions : List String
  templates_path : List String
  exclude_patterns : List String
  html_theme : String
  html_static_path : List String
  html_logo : String
  html_theme_options : List (String × PyValue)
  html_context : List (String × PyValue)
  favicons : List String
  myst_enable_extensions : List String
  copybutton_prompt_text : String
  copybutton_prompt_is_regexp : Bool
  rediraffe_redirects : List (PyValue × PyValue)

/-- Evaluating the module at build time: `year` is `datetime.now().year`,
`cmd` the behaviour of the external git invocation. -/
def evalConf (year : Nat) (cmd : CmdOutcome) : ConfModule :=
  { project := project
    author := author
    copyright := copyright year
    release := release cmd
    version := version cmd
    extensions := extensions
    templates_path := templates_path
    exclude_patterns := exclude_patterns
    html_theme := html_theme
    html_static_path := html_static_path
    html_logo := html_logo
    html_theme_options := html_theme_options
    html_context := html_context
    favicons := favicons
    myst_enable_extensions := myst_enable_extensions
    copybutton_prompt_text := copybutton_prompt_text
    copybutton_prompt_is_regexp := copybutton_prompt_is_regexp
    rediraffe_redirects := rediraffe_redirects }

/-- The Sphinx application object, reduced to the assets registered on it. -/
structure AppState where
  css_files : List String
  js_files : List String
  events : List String
deriving DecidableEq

/-- `app.add_css_file(filename)` appends a stylesheet registration. -/
def AppState.add_css_file (app : AppState) (filename : String) : AppState :=
  { app with css_files := app.css_files ++ [filename] }

/-- `def setup(app): app.add_css_file('customize.css')` -/
def setup (app : AppState) : AppState :=
  app.add_css_file "customize.css"

/-! ### Helper lemmas about `stripList` and `pyStrip` -/

theorem dropWhile_head_any (p : α → Bool) (l : List α) :
    ((l.dropWhile p).head?.any p) = false := by
  induction l with
  | nil => rfl
  | cons a t ih =>
    rw [List.dropWhile_cons]
    by_cases h : p a = true
    · rw [if_pos h]; exact ih
    · rw [if_neg h]
      simp only [List.head?_cons, Option.any_some]
      exact Bool.eq_false_iff.mpr h

theorem head_any_of_prefix {p : α → Bool} {l₁ l₂ : List α} (h : l₁ <+: l₂)
    (h₂ : (l₂.head?.any p) = false) : (l₁.head?.any p) = false := by
  obtain ⟨t, rfl⟩ := h
  cases l₁ with
  | nil => rfl
  | cons a m => simpa using h₂

theorem dropWhile_eq_self_of_head_any {p : α → Bool} {l : List α}
    (h : (l.head?.any p) = false) : l.dropWhile p = l := by
  cases l with
  | nil => rfl
  | cons a m =>
    simp only [List.head?_cons, Option.any_some] at h
    rw [List.dropWhile_cons, if_neg (by simp [h])]

theorem stripList_head (p : α → Bool) (l : List α) :
    ((stripList p l).head?.any p) = false :=
  head_any_of_prefix (List.rdropWhile_prefix p (l.dropWhile p))
    (dropWhile_head_any p l)

theorem stripList_getLast (p : α → Bool) (l : List α) :
    ((stripList p l).getLast?.any p) = false := by
  by_cases hne : stripList p l = []
  · rw [hne]; rfl
  · rw [List.getLast?_eq_getLast _ hne, Option.any_some]
    exact Bool.eq_false_iff.mpr (List.rdropWhile_last_not p (l.dropWhile p) hne)

theorem stripList_idem (p : α → Bool) (l : List α) :
    stripList p (stripList p l) = stripList p l := by
  show List.rdropWhile p ((stripList p l).dropWhile p) = stripList p l
  rw [dropWhile_eq_self_of_head_any (stripList_head p l)]
  exact List.rdropWhile_idempotent p (l.dropWhile p)

theorem rdropWhile_append_rtakeWhile (p : α → Bool) (m : List α) :
    m.rdropWhile p ++ m.rtakeWhile p = m := by
  simp only [List.rdropWhile, List.rtakeWhile]
  rw [← List.reverse_append, List.takeWhile_append_dropWhile, List.reverse_reverse]

theorem stripList_decomp (p : α → Bool) (l : List α) :
    l = l.takeWhile p ++ stripList p l ++ (l.dropWhile p).rtakeWhile p := by
  show l = l.takeWhile p ++ (l.dropWhile p).rdropWhile p ++ (l.dropWhile p).rtakeWhile p
  rw [List.append_assoc, rdropWhile_append_rtakeWhile p (l.dropWhile p),
    List.takeWhile_append_dropWhile]

theorem pyStrip_data (s : String) : (pyStrip s).data = stripList pyIsSpace s.data :=
  rfl

theorem pyStrip_noEdge (s : String) : noEdgeSpace (pyStrip s) = true := by
  unfold noEdgeSpace
  rw [pyStrip_data, stripList_head, stripList_getLast]
  rfl

theorem pyStrip_idem (s : String) : pyStrip (pyStrip s) = pyStrip s :=
  congrArg String.mk (stripList_idem pyIsSpace s.data)

/-! ### Claim theorems -/

/-- C1: when the external command completes with exit code 0 and stdout `s`,
`get_version` returns `s` with leading and trailing whitespace removed and
otherwise unchanged: the result is `pyStrip s`, and `s` splits as a
whitespace prefix, the result itself, and a whitespace suffix. -/
theorem get_version_success (s : String) :
    get_version (CmdOutcome.completed 0 s) = pyStrip s ∧
    ∃ pre suf : List Char,
      s.data = pre ++ (pyStrip s).data ++ suf ∧
      pre.all pyIsSpace = true ∧ suf.all pyIsSpace = true := by
  refine ⟨rfl, s.data.takeWhile pyIsSpace,
    (s.data.dropWhile pyIsSpace).rtakeWhile pyIsSpace, ?_, ?_, ?_⟩
  · rw [pyStrip_data]; exact stripList_decomp pyIsSpace s.data
  · exact List.all_eq_true.mpr fun x hx => List.mem_takeWhile_imp hx
  · exact List.all_eq_true.mpr fun x hx => List.mem_rtakeWhile_imp hx

/-- Witness for C1 at the concrete stdout `" v1.2.3\n"`. -/
theorem get_version_success_witness :
    get_version (CmdOutcome.completed 0 " v1.2.3\n") = pyStrip " v1.2.3\n" ∧
    ∃ pre suf : List Char,
      (" v1.2.3\n" : String).data = pre ++ (pyStrip " v1.2.3\n").data ++ suf ∧
      pre.all pyIsSpace = true ∧ suf.all pyIsSpace = true :=
  get_version_success " v1.2.3\n"

/-- C2: when the external command is unavailable (raises) or completes with a
non-zero exit code, `get_version` returns exactly the literal `"v0.0.0"`. -/
theorem get_version_fallback (o : CmdOutcome)
    (h : o = CmdOutcome.exc ∨ ∃ rc s, o = CmdOutcome.completed rc s ∧ rc ≠ 0) :
    get_version o = "v0.0.0" := by
  rcases h with h | ⟨rc, s, rfl, hrc⟩
  · rw [h]; rfl
  · show (if rc = 0 then pyStrip s else "v0.0.0") = "v0.0.0"
    rw [if_neg hrc]

/-- Witness for C2 at exit code 1. -/
theorem get_version_fallback_witness :
    get_version (CmdOutcome.completed 1 "v1.2.3") = "v0.0.0" :=
  get_version_fallback (CmdOutcome.completed 1 "v1.2.3")
    (Or.inr ⟨1, "v1.2.3", rfl, by decide⟩)

/-- C3: `get_version` never propagates an exception: it is a total function of
the external call's behaviour, returning `"v0.0.0"` when the call raises, and
for every behaviour it returns either the fallback or the stripped stdout of a
successful run. -/
theorem get_version_no_exception :
    get_version CmdOutcome.exc = "v0.0.0" ∧
    ∀ o : CmdOutcome, get_version o = "v0.0.0" ∨
      ∃ s, o = CmdOutcome.completed 0 s ∧ get_version o = pyStrip s := by
  refine ⟨rfl, fun o => ?_⟩
  cases o with
  | exc => exact Or.inl rfl
  | completed rc s =>
    by_cases h : rc = 0
    · subst h
      exact Or.inr ⟨s, rfl, rfl⟩
    · refine Or.inl ?_
      show (if rc = 0 then pyStrip s else "v0.0.0") = "v0.0.0"
      rw [if_neg h]

/-- C4 counterexample: the copyright string depends on the build-time year,
so two evaluations of the module in different years disagree on `copyright`. -/
theorem copyright_depends_on_year :
    (evalConf 2025 CmdOutcome.exc).copyright ≠ (evalConf 2026 CmdOutcome.exc).copyright := by
  decide

/-- C4 (amended): `project` and `author` are identical across any two
evaluations of the module; `copyright` is determined by the evaluation-time
year as the year followed by `", junioryono"`. -/
theorem metadata_static_amended (y₁ y₂ : Nat) (c₁ c₂ : CmdOutcome) :
    (evalConf y₁ c₁).project = (evalConf y₂ c₂).project ∧
    (evalConf y₁ c₁).author = (evalConf y₂ c₂).author ∧
    (evalConf y₁ c₁).copyright = toString y₁ ++ ", " ++ author :=
  ⟨rfl, rfl, rfl⟩

/-- C5: evaluating the configuration module defines all of the named
top-level variables `project`, `author`, `copyright`, `release`, `version`,
`extensions`, `html_theme`, `html_theme_options`, `html_context`, and
`rediraffe_redirects`, each with its value from `docs/conf.py`. -/
theorem conf_defines_all_variables (y : Nat) (c : CmdOutcome) :
    (evalConf y c).project = project ∧
    (evalConf y c).author = author ∧
    (evalConf y c).copyright = copyright y ∧
    (evalConf y c).release = release c ∧
    (evalConf y c).version = version c ∧
    (evalConf y c).extensions = extensions ∧
    (evalConf y c).html_theme = html_theme ∧
    (evalConf y c).html_theme_options = html_theme_options ∧
    (evalConf y c).html_context = html_context ∧
    (evalConf y c).rediraffe_redirects = rediraffe_redirects :=
  ⟨rfl, rfl, rfl, rfl, rfl, rfl, rfl, rfl, rfl, rfl⟩

/-- C6: `setup app` registers exactly one stylesheet, `customize.css`, and
changes nothing else on the application object. -/
theorem setup_adds_only_css (app : AppState) :
    (setup app).css_files = app.css_files ++ ["customize.css"] ∧
    (setup app).js_files = app.js_files ∧
    (setup app).events = app.events :=
  ⟨rfl, rfl, rfl⟩

/-- C7: every key and every value of `rediraffe_redirects` is a string. -/
theorem rediraffe_all_strings :
    rediraffe_redirects.all (fun p => p.1.isStr && p.2.isStr) = true := by
  rfl

/-- C8: after module evaluation, `version` equals `release`, whatever
`get_version` returned. -/
theorem version_eq_release (y : Nat) (c : CmdOutcome) :
    (evalConf y c).version = (evalConf y c).release :=
  rfl

/-- C9: for every outcome of the external command the string returned by
`get_version` has no leading or trailing whitespace, and stripping the
returned value is idempotent. -/
theorem get_version_no_edge_whitespace (o : CmdOutcome) :
    noEdgeSpace (get_version o) = true ∧ pyStrip (get_version o) = get_version o := by
  cases o with
  | exc => exact ⟨rfl, rfl⟩
  | completed rc s =>
    by_cases h : rc = 0
    · subst h
      show noEdgeSpace (pyStrip s) = true ∧ pyStrip (pyStrip s) = pyStrip s
      exact ⟨pyStrip_noEdge s, pyStrip_idem s⟩
    · have hv : get_version (CmdOutcome.completed rc s) = "v0.0.0" := by
        show (if rc = 0 then pyStrip s else "v0.0.0") = "v0.0.0"
        rw [if_neg h]
      rw [hv]
      exact ⟨rfl, rfl⟩

/-- C10: no key of `rediraffe_redirects` occurs among its values: every
redirect resolves in a single step. -/
theorem rediraffe_no_chains :
    rediraffe_redirects.all
      (fun p => rediraffe_redirects.all (fun q => !(p.1 == q.2))) = true := by
  rfl

end DocsConf
